import Mathlib

/-!
Verification of the SmartLabAI lab-report analyzers (LFT and CBC).

The development shallowly embeds the classification, reference-range and
patient-history logic of `lft.py`, `CBC_Analyzer.py` and `historical_lft.py`.
Numeric lab values are modelled as rationals (`ℚ`): the program only parses
decimal literals and compares them, operations on which Python's binary
floats realise order-faithfully for the magnitudes involved.
-/

namespace SmartLabAI

/-- Classification verdict of `analyze_value`: the strings
`"LOW"`, `"HIGH"`, `"NORMAL"` and `"Unable to analyze"`. -/
inductive Verdict where
  | low
  | high
  | normal
  | unclassifiable
deriving DecidableEq, Repr

/-- Greedy run of ASCII digits at the head of a character list, together
with the unconsumed remainder.  Models one `\d+` (or `\d*`) step of the
regex `(\d+\.?\d*)`; Python's `\d` on the strings this program handles
matches exactly the ASCII digits. -/
def takeDigits : List Char → List Char × List Char
  | [] => ([], [])
  | c :: rest =>
    if c.isDigit then
      let p := takeDigits rest
      (c :: p.1, p.2)
    else ([], c :: rest)

/-- State machine realising `re.findall(r'(\d+\.?\d*)', s)`: left-to-right
scan; a token is a maximal digit run, optionally followed by one dot and a
further maximal digit run.  The state carries the token built so far and
whether its dot has been consumed. -/
def findNumbersAux : Option (List Char × Bool) → List Char → List (List Char)
  | none, [] => []
  | some st, [] => [st.1]
  | none, c :: cs =>
    if c.isDigit then findNumbersAux (some ([c], false)) cs
    else findNumbersAux none cs
  | some (tok, false), c :: cs =>
    if c.isDigit then findNumbersAux (some (tok ++ [c], false)) cs
    else if c = '.' then findNumbersAux (some (tok ++ [c], true)) cs
    else tok :: findNumbersAux none cs
  | some (tok, true), c :: cs =>
    if c.isDigit then findNumbersAux (some (tok ++ [c], true)) cs
    else tok :: findNumbersAux none cs

/-- All numeric substrings of `s`, in left-to-right order
(`re.findall(r'(\d+\.?\d*)', range_str)` in `extract_range`). -/
def pyFindallNumbers (s : String) : List String :=
  (findNumbersAux none s.data).map fun cs => String.mk cs

/-- Value of a digit string, most significant digit first. -/
def digitsToNat (cs : List Char) : Nat :=
  cs.foldl (fun n c => 10 * n + (c.toNat - '0'.toNat)) 0

/-- Numerator and denominator of the decimal written by a token matched by
`(\d+\.?\d*)`: all digits read as one integer, over `10 ^ fractionLength`. -/
def parseDecParts (cs : List Char) : Nat × Nat :=
  let ip := (takeDigits cs).1
  match (takeDigits cs).2 with
  | '.' :: t =>
    let fp := (takeDigits t).1
    (digitsToNat ip * 10 ^ fp.length + digitsToNat fp, 10 ^ fp.length)
  | _ => (digitsToNat ip, 1)

/-- `float()` applied to a token matched by `(\d+\.?\d*)`: integer part,
then an optional fractional part after the dot.  Exact as a rational. -/
def parseDec (cs : List Char) : ℚ :=
  ((parseDecParts cs).1 : ℚ) / ((parseDecParts cs).2 : ℚ)

/-- `parseDec` on a string token. -/
def parseDecS (s : String) : ℚ := parseDec s.data

/-- `extract_range(range_str)` (identical in `lft.py` and
`CBC_Analyzer.py`): the first two numeric substrings as `(low, high)` when
at least two are present, the `(None, None)` sentinel (here `none`)
otherwise. -/
def extractRange (s : String) : Option (ℚ × ℚ) :=
  match pyFindallNumbers s with
  | n0 :: n1 :: _ => some (parseDecS n0, parseDecS n1)
  | _ => none

/-- `analyze_value(value, ref_range)` (identical in `lft.py` and
`CBC_Analyzer.py`): verdict together with the display colour string. -/
def analyzeValue (value : ℚ) (refRange : String) : Verdict × String :=
  match extractRange refRange with
  | none => (.unclassifiable, "gray")
  | some (minVal, maxVal) =>
    if value < minVal then (.low, "red")
    else if value > maxVal then (.high, "orange")
    else (.normal, "green")

/-- Python `str.lower()`: the strings the program lowercases (gender
names, search queries) are ASCII, where it agrees with per-character
ASCII lowering. -/
def pyLower (s : String) : String :=
  String.mk (s.data.map Char.toLower)

/-- One value of the `LFT_Reference_Ranges` dict: either a metadata string
(`version`, `note`) or a category table of parameters, each mapping gender
keys to a range string. -/
inductive RangeCatVal where
  | meta (s : String)
  | table (entries : List (String × List (String × String)))
deriving DecidableEq, Repr

/-- The values of `LFT_REFERENCE_RANGES["LFT_Reference_Ranges"]` in `lft.py`,
in dict insertion order. -/
def lftReferenceRangeValues : List RangeCatVal :=
  [ .meta "2025.1",
    .meta "Reference ranges may slightly vary between laboratories",
    .table
      [ ("ALT (SGPT)", [("male", "10-40 U/L"), ("female", "7-35 U/L")]),
        ("AST (SGOT)", [("male", "10-40 U/L"), ("female", "9-32 U/L")]),
        ("ALP (Alkaline Phosphatase)", [("male", "40-130 U/L"), ("female", "35-105 U/L")]),
        ("GGT (Gamma GT)", [("male", "8-61 U/L"), ("female", "5-36 U/L")]) ],
    .table
      [ ("Total_Protein", [("male", "6.0-8.3 g/dL"), ("female", "6.0-8.3 g/dL")]),
        ("Albumin", [("male", "3.5-5.0 g/dL"), ("female", "3.5-5.0 g/dL")]),
        ("Globulin", [("male", "2.0-3.5 g/dL"), ("female", "2.0-3.5 g/dL")]),
        ("A/G Ratio", [("male", "1.0-2.2"), ("female", "1.0-2.2")]) ],
    .table
      [ ("Total_Bilirubin", [("male", "0.3-1.2 mg/dL"), ("female", "0.3-1.2 mg/dL")]),
        ("Direct_Bilirubin", [("male", "0.1-0.3 mg/dL"), ("female", "0.1-0.3 mg/dL")]),
        ("Indirect_Bilirubin", [("male", "0.2-0.9 mg/dL"), ("female", "0.2-0.9 mg/dL")]) ] ]

/-- Python dict indexing `d[key]` (and membership `key in d`, via
`Option.isSome`) over an association list in insertion order:
case-sensitive string key equality. -/
def dictGet (key : String) : List (String × α) → Option α
  | [] => none
  | (k, v) :: rest => if k == key then some v else dictGet key rest

/-- Loop body of `get_reference_range`: scan the dict values in order,
skip the non-dict metadata entries, and on the first category containing
`cellType` (dict membership, hence case-sensitive) return that entry's
value under the lowercased gender key.  A gender key miss (a `KeyError`
in Python) is modelled as `none`. -/
def lookupRange (cats : List RangeCatVal) (cellType : String) (genderLower : String) :
    Option String :=
  match cats with
  | [] => none
  | .meta _ :: rest => lookupRange rest cellType genderLower
  | .table entries :: rest =>
    match dictGet cellType entries with
    | some gmap => dictGet genderLower gmap
    | none => lookupRange rest cellType genderLower

/-- `get_reference_range(cell_type, gender)` in `lft.py`: first matching
category wins; gender is lowercased before the lookup (`gender.lower()`);
`None` when no category contains the parameter. -/
def getReferenceRange (cellType gender : String) : Option String :=
  lookupRange lftReferenceRangeValues cellType (pyLower gender)

/-- `True` iff some category of the LFT table contains `cellType` as a
parameter key. -/
def paramInLftTable (cellType : String) : Bool :=
  lftReferenceRangeValues.any fun cat =>
    match cat with
    | .meta _ => false
    | .table entries => entries.any fun e => e.1 == cellType

/-- Python `str.strip()` of a float literal: leading and trailing
whitespace removed. -/
def trimWs (cs : List Char) : List Char :=
  ((cs.dropWhile Char.isWhitespace).reverse.dropWhile Char.isWhitespace).reverse

/-- Sign prefix of a Python float literal. -/
def takeSign : List Char → Bool × List Char
  | '-' :: t => (true, t)
  | '+' :: t => (false, t)
  | cs => (false, cs)

/-- Exponent suffix of a Python float literal: empty, or `e`/`E`, an
optional sign and a non-empty digit run ending the string. -/
def parseExpPart : List Char → Option ℤ
  | [] => some 0
  | c :: t =>
    if c = 'e' ∨ c = 'E' then
      let neg := (takeSign t).1
      let t2 := (takeSign t).2
      let ed := (takeDigits t2).1
      if ed = [] ∨ (takeDigits t2).2 ≠ [] then none
      else some (if neg then -(digitsToNat ed : ℤ) else (digitsToNat ed : ℤ))
    else none

/-- Decidable representation of `float(s)` on a finite decimal literal:
`(negative?, numerator, denominator, decimal exponent)`, `none` when the
literal is rejected.  Models Python `float()` up to the forms the program
produces (plain and exponent decimals); `inf`/`nan` spellings and digit
underscores are not modelled. -/
def pyFloatRepr (s : String) : Option (Bool × Nat × Nat × ℤ) :=
  let cs := trimWs s.data
  let neg := (takeSign cs).1
  let cs1 := (takeSign cs).2
  let ip := (takeDigits cs1).1
  match (takeDigits cs1).2 with
  | '.' :: t =>
    let fp := (takeDigits t).1
    if ip = [] ∧ fp = [] then none
    else
      match parseExpPart (takeDigits t).2 with
      | some e => some (neg, digitsToNat ip * 10 ^ fp.length + digitsToNat fp, 10 ^ fp.length, e)
      | none => none
  | r1 =>
    if ip = [] then none
    else
      match parseExpPart r1 with
      | some e => some (neg, digitsToNat ip, 1, e)
      | none => none

/-- `float(s)` as an exact rational (see `pyFloatRepr`). -/
def pyFloat (s : String) : Option ℚ :=
  (pyFloatRepr s).map fun r =>
    (if r.1 then (-1 : ℚ) else 1) * ((r.2.1 : ℚ) / (r.2.2.1 : ℚ)) * (10 : ℚ) ^ r.2.2.2

/-- `s.split()` with no separator: the maximal whitespace-free runs, in
order, empty runs dropped.  The building token is threaded through the
scan. -/
def splitWsAux : Option (List Char) → List Char → List (List Char)
  | none, [] => []
  | some tok, [] => [tok]
  | none, c :: cs =>
    if c.isWhitespace then splitWsAux none cs else splitWsAux (some [c]) cs
  | some tok, c :: cs =>
    if c.isWhitespace then tok :: splitWsAux none cs
    else splitWsAux (some (tok ++ [c])) cs

/-- `s.split()[0]`: first whitespace-separated token, `none` when there is
none (the `IndexError` case). -/
def firstToken (s : String) : Option String :=
  ((splitWsAux none s.data).map fun cs => String.mk cs).head?

/-- `float(s.split()[0])`, with every failure (`IndexError`/`ValueError`)
as `none`. -/
def pyFloatTok (s : String) : Option ℚ :=
  (firstToken s).bind pyFloat

/-- One element of a stored `lft_results` list: the dict
`{"Test": _, "Value": _, "Reference Range": _, "Status": _}` built by
`lft_analyzer_page`. -/
structure LabResult where
  test : String
  value : String
  referenceRange : String
  status : String
deriving DecidableEq, Repr

/-- One element of a stored `abnormalities` list
(`format_abnormalities`). -/
structure Abnormality where
  parameter : String
  value : String
  status : String
  reference_range : String
deriving DecidableEq, Repr

/-- A document of the `patient_records` collection, as built by
`save_patient_record`.  Dates and timestamps are modelled as integers
(ordinal datetimes). -/
structure PatientRecord where
  patient_id : String
  patient_name : String
  age : Nat
  gender : String
  test_date : ℤ
  lft_results : List LabResult
  abnormalities : List Abnormality
  created_at : ℤ
  is_new_patient : Bool
deriving DecidableEq, Repr

/-- The `patient_info` dict passed to `save_patient_record`; its
`test_date` is modelled already converted to an ordinal date. -/
structure PatientInfo where
  name : String
  age : Nat
  gender : String
  test_date : ℤ
deriving DecidableEq, Repr

/-- `LFTHistoryManager` state: whether `connect` succeeded (`self.client`
non-`None`) and the documents of the MongoDB collection in insertion
order. -/
structure HistoryStore where
  client : Bool
  docs : List PatientRecord
deriving DecidableEq, Repr

/-- `save_patient_record`: no-op failure when the client is absent,
otherwise `insert_one` of the assembled record (append) and success.
`now` stands for `datetime.now()`. -/
def save_patient_record (store : HistoryStore) (now : ℤ) (patient_id : String)
    (patient_info : PatientInfo) (lft_results : List LabResult)
    (abnormalities : List Abnormality) (is_new_patient : Bool) :
    HistoryStore × Bool :=
  if store.client then
    ({ store with
        docs := store.docs ++
          [{ patient_id := patient_id
             patient_name := patient_info.name
             age := patient_info.age
             gender := patient_info.gender
             test_date := patient_info.test_date
             lft_results := lft_results
             abnormalities := abnormalities
             created_at := now
             is_new_patient := is_new_patient }] }, true)
  else (store, false)

/-- Insert into a list sorted ascending by `test_date`, before the first
strictly later record (stable). -/
def insertByDate (r : PatientRecord) : List PatientRecord → List PatientRecord
  | [] => [r]
  | x :: xs => if x.test_date < r.test_date then x :: insertByDate r xs else r :: x :: xs

/-- Stable sort ascending by `test_date`
(`.sort("test_date", 1)` on the cursor). -/
def sortByDate : List PatientRecord → List PatientRecord
  | [] => []
  | r :: rs => insertByDate r (sortByDate rs)

/-- `get_patient_history(patient_id)`: `[]` without a client, otherwise
all documents with this `patient_id`, sorted ascending by `test_date`. -/
def get_patient_history (store : HistoryStore) (pid : String) : List PatientRecord :=
  if store.client then sortByDate (store.docs.filter fun r => r.patient_id == pid)
  else []

/-- The summary dict built by `get_patient_summary`. -/
structure PatientSummary where
  patient_id : String
  patient_name : String
  age : Nat
  gender : String
  total_visits : Nat
  total_abnormalities : Nat
  first_visit : ℤ
  last_visit : ℤ
deriving DecidableEq, Repr

/-- `max(records, key=lambda x: x['test_date'])`: Python `max` keeps the
first element among ties. -/
def latestRecord (r : PatientRecord) (rs : List PatientRecord) : PatientRecord :=
  rs.foldl (fun best x => if x.test_date > best.test_date then x else best) r

/-- Core of `get_patient_summary` over an already-retrieved record list:
the `{}` sentinel (here `none`) when the list is empty, otherwise the
summary dict. -/
def summarize (pid : String) : List PatientRecord → Option PatientSummary
  | [] => none
  | r :: rs =>
    let latest := latestRecord r rs
    some
      { patient_id := pid
        patient_name := latest.patient_name
        age := latest.age
        gender := latest.gender
        total_visits := (r :: rs).length
        total_abnormalities := ((r :: rs).map fun x => x.abnormalities.length).sum
        first_visit := rs.foldl (fun m x => min m x.test_date) r.test_date
        last_visit := rs.foldl (fun m x => max m x.test_date) r.test_date }

/-- `get_patient_summary(patient_id)`: `{}` (here `none`) without a
client or with an empty history, otherwise the summary of the retrieved
records. -/
def get_patient_summary (store : HistoryStore) (pid : String) : Option PatientSummary :=
  if store.client then summarize pid (get_patient_history store pid) else none

/-- `check_patient_id_exists(patient_id)`: `False` without a client,
otherwise whether some document carries the id (`find_one`). -/
def check_patient_id_exists (store : HistoryStore) (pid : String) : Bool :=
  if store.client then store.docs.any fun r => r.patient_id == pid else false

/-- Whether `needle` starts `hay`. -/
def prefCheck : List Char → List Char → Bool
  | [], _ => true
  | _ :: _, [] => false
  | a :: as, b :: bs => a == b && prefCheck as bs

/-- Whether `needle` occurs contiguously in `hay`. -/
def subCheck (needle : List Char) : List Char → Bool
  | [] => prefCheck needle []
  | b :: bs => prefCheck needle (b :: bs) || subCheck needle bs

/-- Case-insensitive substring test, modelling the `$regex` match with
`$options: "i"` on a query without regex metacharacters. -/
def matchesQuery (query field : String) : Bool :=
  subCheck (pyLower query).data (pyLower field).data

/-- `$group` by `patient_id` keeping the first (latest, after the
descending sort) record of each patient. -/
def firstPerPatient (seen : List String) : List PatientRecord → List PatientRecord
  | [] => []
  | r :: rs =>
    if seen.contains r.patient_id then firstPerPatient seen rs
    else r :: firstPerPatient (r.patient_id :: seen) rs

/-- `search_patients(query)`: `[]` without a client; otherwise the
aggregation pipeline — match on id or name (case-insensitive substring,
everything on an empty query), sort descending by `test_date`, keep each
patient's latest record, sort descending again. -/
def search_patients (store : HistoryStore) (query : String) : List PatientRecord :=
  if store.client then
    let matched :=
      if query = "" then store.docs
      else store.docs.filter fun r =>
        matchesQuery query r.patient_id || matchesQuery query r.patient_name
    (sortByDate (firstPerPatient [] (sortByDate matched).reverse)).reverse
  else []

/-- The trend marker of a comparison row: the rise/fall emojis, the flat
arrow, or the `'N/A'` sentinel. -/
inductive Trend where
  | up
  | down
  | flat
  | na
deriving DecidableEq, Repr

/-- One row of the visit-comparison table of `display_patient_history`.
Absent values/statuses and an unavailable change (`'N/A'`) are `none`;
`changePct` is the computed change before its `%.1f` display
formatting. -/
structure DeltaRow where
  parameter : String
  visit1Value : Option String
  visit1Status : Option String
  visit2Value : Option String
  visit2Status : Option String
  changePct : Option ℚ
  trend : Trend
deriving DecidableEq, Repr

/-- The dict `{r['Test']: r for r in results}`: lookup by `Test`, later
duplicates overwriting earlier ones. -/
def lookupTest (results : List LabResult) (param : String) : Option LabResult :=
  results.reverse.find? fun r => r.test == param

/-- The body of the per-parameter comparison loop of
`display_patient_history`: values and statuses from each visit when
present, and — when both are present — the percentage change
`(val2 - val1) / val1 * 100` with its trend marker.  A `float()` failure
or the `val1 = 0` `ZeroDivisionError` is caught by the bare `except` and
yields the `'N/A'` change and trend. -/
def compareRow (res1 res2 : List LabResult) (param : String) : DeltaRow :=
  let e1 := lookupTest res1 param
  let e2 := lookupTest res2 param
  let ct : Option ℚ × Trend :=
    match e1, e2 with
    | some r1, some r2 =>
      match pyFloatTok r1.value, pyFloatTok r2.value with
      | some val1, some val2 =>
        if val1 = 0 then (none, .na)
        else
          let change := (val2 - val1) / val1 * 100
          (some change, if |change| > 10 then (if change > 0 then .up else .down) else .flat)
      | _, _ => (none, .na)
    | _, _ => (none, .na)
  { parameter := param
    visit1Value := e1.map fun r => r.value
    visit1Status := e1.map fun r => r.status
    visit2Value := e2.map fun r => r.value
    visit2Status := e2.map fun r => r.status
    changePct := ct.1
    trend := ct.2 }

/-- Insertion into a lexicographically sorted string list. -/
def insertStr (s : String) : List String → List String
  | [] => [s]
  | x :: xs => if s ≤ x then s :: x :: xs else x :: insertStr s xs

/-- `sorted(...)` on strings (code-point lexicographic, as in Python). -/
def sortStrings : List String → List String
  | [] => []
  | s :: ss => insertStr s (sortStrings ss)

/-- `sorted(set(params1.keys()) | set(params2.keys()))`: the parameter
names of either visit, without duplicates, sorted. -/
def comparisonParams (res1 res2 : List LabResult) : List String :=
  sortStrings (((res1.map fun r => r.test) ++ (res2.map fun r => r.test)).dedup)

/-- The full `comparison_data` table: one row per parameter of the sorted
union. -/
def comparisonData (res1 res2 : List LabResult) : List DeltaRow :=
  (comparisonParams res1 res2).map (compareRow res1 res2)

/-- Verdict severity rank, ordering `LOW < NORMAL < HIGH`. -/
def verdictRank : Verdict → Nat
  | .low => 0
  | .normal => 1
  | .high => 2
  | .unclassifiable => 3

/-- A concrete stored lab result used as witness data. -/
def sampleResult : LabResult :=
  ⟨"ALT (SGPT)", "20 U/L", "10-40 U/L", "NORMAL"⟩

/-- A concrete stored visit record used as witness data. -/
def sampleRecord : PatientRecord :=
  ⟨"LFT-20250101-TESTX", "Test Patient", 30, "Male", 739252, [sampleResult], [], 739252, true⟩

/-! ## Supporting lemmas -/

/-- Unfolding of `analyzeValue` when the range parses. -/
theorem analyzeValue_of_extract {rt : String} {lo hi : ℚ}
    (h : extractRange rt = some (lo, hi)) (v : ℚ) :
    (analyzeValue v rt).1 =
      if v < lo then Verdict.low else if v > hi then Verdict.high else Verdict.normal := by
  simp only [analyzeValue, h]
  split_ifs <;> rfl

/-- `extract_range` returns its sentinel when fewer than two numbers are
found. -/
theorem extractRange_of_short {rt : String}
    (h : (pyFindallNumbers rt).length < 2) : extractRange rt = none := by
  unfold extractRange
  match hm : pyFindallNumbers rt with
  | [] => rfl
  | [n0] => rfl
  | n0 :: n1 :: rest => rw [hm] at h; simp at h; omega

/-- Membership through date insertion. -/
theorem mem_insertByDate {a r : PatientRecord} {l : List PatientRecord} :
    a ∈ insertByDate r l ↔ a = r ∨ a ∈ l := by
  induction l with
  | nil => simp [insertByDate]
  | cons x xs ih =>
    simp only [insertByDate]
    split_ifs <;> simp [ih] <;> tauto

/-- Sorting by date preserves membership. -/
theorem mem_sortByDate {a : PatientRecord} {l : List PatientRecord} :
    a ∈ sortByDate l ↔ a ∈ l := by
  induction l with
  | nil => simp [sortByDate]
  | cons r rs ih => simp [sortByDate, mem_insertByDate, ih]

/-- A dict lookup misses when no entry carries the key. -/
theorem dictGet_eq_none {α : Type} (key : String) (es : List (String × α))
    (h : (es.any fun e => e.1 == key) = false) : dictGet key es = none := by
  induction es with
  | nil => rfl
  | cons e rest ih =>
    simp only [List.any_cons, Bool.or_eq_false_iff] at h
    simp only [dictGet]
    rw [h.1]
    exact ih h.2

/-- The category scan misses when no category carries the parameter. -/
theorem lookupRange_eq_none (ct g : String) (cats : List RangeCatVal)
    (h : (cats.any fun cat =>
      match cat with
      | .meta _ => false
      | .table es => es.any fun e => e.1 == ct) = false) :
    lookupRange cats ct g = none := by
  induction cats with
  | nil => rfl
  | cons c rest ih =>
    simp only [List.any_cons, Bool.or_eq_false_iff] at h
    cases c with
    | meta s => exact ih h.2
    | table es =>
      simp only [lookupRange]
      rw [dictGet_eq_none ct es h.1]
      exact ih h.2

/-- Characterisation of the trend marker of a comparison row. -/
theorem trend_if_spec (c : ℚ) :
    ((if |c| > 10 then if c > 0 then Trend.up else Trend.down else Trend.flat) = Trend.up
        ↔ 10 < c) ∧
    ((if |c| > 10 then if c > 0 then Trend.up else Trend.down else Trend.flat) = Trend.down
        ↔ c < -10) ∧
    ((if |c| > 10 then if c > 0 then Trend.up else Trend.down else Trend.flat) = Trend.flat
        ↔ |c| ≤ 10) := by
  split_ifs with h1 h2
  · rcases lt_abs.mp h1 with h | h
    · refine ⟨iff_of_true rfl h, iff_of_false (by simp) (by intro hc; linarith), ?_⟩
      exact iff_of_false (by simp) (by intro hc; linarith)
    · exact absurd h2 (by intro; linarith)
  · rcases lt_abs.mp h1 with h | h
    · exact absurd h (by intro; push_neg at h2; linarith)
    · refine ⟨iff_of_false (by simp) (by intro hc; linarith), iff_of_true rfl (by linarith), ?_⟩
      exact iff_of_false (by simp) (by intro hc; rw [abs_le] at hc; linarith)
  · push_neg at h1
    rw [abs_le] at h1
    refine ⟨iff_of_false (by simp) (by intro hc; linarith), ?_, iff_of_true rfl (abs_le.mpr h1)⟩
    exact iff_of_false (by simp) (by intro hc; linarith)

/-! ## Claims -/

/-- Claim C1: `get_patient_summary`'s core over the retrieved records
fails with the empty-history sentinel (the `{}` that realises
EmptyHistoryError) exactly on an empty record list; on any non-empty list
it returns a genuine summary — with the correct visit count — and, being
a pure function, is deterministic; a single visit yields visit count `1`
and `first_visit = last_visit`. -/
theorem claim_C1_summarize_empty_history (pid : String) (recs : List PatientRecord) :
    (summarize pid recs = none ↔ recs = []) ∧
    (recs ≠ [] → ∃ s, summarize pid recs = some s ∧ s.total_visits = recs.length) ∧
    (∀ r : PatientRecord, ∃ s, summarize pid [r] = some s ∧
      s.total_visits = 1 ∧ s.first_visit = s.last_visit) := by
  refine ⟨?_, ?_, ?_⟩
  · cases recs <;> simp [summarize]
  · intro h
    cases recs with
    | nil => exact absurd rfl h
    | cons r rs => exact ⟨_, rfl, rfl⟩
  · intro r
    exact ⟨_, rfl, rfl, rfl⟩

/-- Witness for claim C1 at a concrete one-record history. -/
theorem claim_C1_witness :
    ∃ s, summarize "LFT-20250101-TESTX" [sampleRecord] = some s ∧ s.total_visits = 1 :=
  ((claim_C1_summarize_empty_history "LFT-20250101-TESTX" [sampleRecord]).2.1
      (by simp)).imp fun s h => ⟨h.1, by rw [h.2]; rfl⟩

/-- Claim C2: for a range text parsing to bounds `lo ≤ hi`,
`analyze_value` returns LOW exactly below `lo`, HIGH exactly above `hi`,
NORMAL otherwise; both boundaries are inclusive, and any positive
perturbation past a boundary flips the verdict. -/
theorem claim_C2_classify_inclusive_bounds (v lo hi : ℚ) (rt : String)
    (h : extractRange rt = some (lo, hi)) (hle : lo ≤ hi) :
    ((analyzeValue v rt).1 = .low ↔ v < lo) ∧
    ((analyzeValue v rt).1 = .high ↔ v > hi) ∧
    ((analyzeValue v rt).1 = .normal ↔ lo ≤ v ∧ v ≤ hi) ∧
    (analyzeValue lo rt).1 = .normal ∧
    (analyzeValue hi rt).1 = .normal ∧
    (∀ ε : ℚ, 0 < ε → (analyzeValue (lo - ε) rt).1 = .low ∧
      (analyzeValue (hi + ε) rt).1 = .high) := by
  rw [analyzeValue_of_extract h v, analyzeValue_of_extract h lo, analyzeValue_of_extract h hi]
  refine ⟨?_, ?_, ?_, ?_, ?_, ?_⟩
  · split_ifs with h1 h2 <;> simp_all
  · split_ifs with h1 h2 <;> simp_all <;> linarith
  · split_ifs with h1 h2 <;> simp_all <;> intro <;> linarith
  · split_ifs with h1 h2 <;> first | rfl | linarith
  · split_ifs with h1 h2 <;> first | rfl | linarith
  · intro ε hε
    rw [analyzeValue_of_extract h (lo - ε), analyzeValue_of_extract h (hi + ε)]
    constructor
    · split_ifs with h1 <;> first | rfl | (exfalso; linarith)
    · split_ifs with h1 h2 <;> first | rfl | (exfalso; linarith)

/-- Witness for claim C2 on the ALT male range `"10-40 U/L"`. -/
theorem claim_C2_witness : (analyzeValue 10 "10-40 U/L").1 = .normal :=
  (claim_C2_classify_inclusive_bounds 15 10 40 "10-40 U/L"
    (by simp [extractRange, (by decide : pyFindallNumbers "10-40 U/L" = ["10", "40"]),
      parseDecS, parseDec, (by decide : parseDecParts "10".data = (10, 1)),
      (by decide : parseDecParts "40".data = (40, 1))])
    (by decide)).2.2.2.1

/-- Claim C3: on a range text with fewer than two numeric tokens,
`analyze_value` returns the `"Unable to analyze"` verdict for every input
value (being a total function of the embedding, it raises nothing). -/
theorem claim_C3_unclassifiable_short_range (v : ℚ) (rt : String)
    (h : (pyFindallNumbers rt).length < 2) :
    (analyzeValue v rt).1 = .unclassifiable := by
  simp [analyzeValue, extractRange_of_short h]

/-- Witness for claim C3 on a range text with no numeric token. -/
theorem claim_C3_witness : (analyzeValue 7 "pending").1 = .unclassifiable :=
  claim_C3_unclassifiable_short_range 7 "pending" (by decide)

/-- Claim C4: `extract_range` takes the first two of all numeric
substrings extracted left-to-right; on
`"1.5-8.0 ×10³/μL (40-60%)"` the extracted list is
`["1.5", "8.0", "10", "40", "60"]`, the bounds are `(1.5, 8.0)` —
trailing unit and percentage annotations ignored — and classifying `3.0`
against it yields NORMAL. -/
theorem claim_C4_extract_first_two_numbers :
    (∀ (rt t0 t1 : String) (rest : List String),
      pyFindallNumbers rt = t0 :: t1 :: rest →
      extractRange rt = some (parseDecS t0, parseDecS t1)) ∧
    pyFindallNumbers "1.5-8.0 ×10³/μL (40-60%)" = ["1.5", "8.0", "10", "40", "60"] ∧
    extractRange "1.5-8.0 ×10³/μL (40-60%)" = some (3/2, 8) ∧
    (analyzeValue 3 "1.5-8.0 ×10³/μL (40-60%)").1 = .normal := by
  have hf : pyFindallNumbers "1.5-8.0 ×10³/μL (40-60%)" = ["1.5", "8.0", "10", "40", "60"] := by
    decide
  have hx : extractRange "1.5-8.0 ×10³/μL (40-60%)" = some (3/2, 8) := by
    simp only [extractRange, hf, parseDecS, parseDec,
      (by decide : parseDecParts "1.5".data = (15, 10)),
      (by decide : parseDecParts "8.0".data = (80, 10))]
    norm_num
  refine ⟨?_, hf, hx, ?_⟩
  · intro rt t0 t1 rest hm
    simp only [extractRange, hm]
  · rw [analyzeValue_of_extract hx 3]
    norm_num

/-- Witness for claim C4's general clause at a concrete range text. -/
theorem claim_C4_witness :
    extractRange "8-61 U/L" = some (parseDecS "8", parseDecS "61") :=
  claim_C4_extract_first_two_numbers.1 "8-61 U/L" "8" "61" [] (by decide)

/-- Claim C5: when a parameter is present in both compared visits with
numeric leading values `a ≠ 0` and `b`, the comparison row carries the
percentage change `(b - a) / a * 100` and a significant up/down trend
marker exactly when `|change| > 10` (up for positive change, down for
negative), flat otherwise; a parameter absent from a visit gets the
`'N/A'` sentinel row; ALT going `20 → 44` gives `+120%`, significant,
up. -/
theorem claim_C5_compare_percentage_change :
    (∀ (res1 res2 : List LabResult) (param : String) (r1 r2 : LabResult) (a b : ℚ),
      lookupTest res1 param = some r1 → lookupTest res2 param = some r2 →
      pyFloatTok r1.value = some a → pyFloatTok r2.value = some b → a ≠ 0 →
      (compareRow res1 res2 param).changePct = some ((b - a) / a * 100) ∧
      ((compareRow res1 res2 param).trend = .up ↔ 10 < (b - a) / a * 100) ∧
      ((compareRow res1 res2 param).trend = .down ↔ (b - a) / a * 100 < -10) ∧
      ((compareRow res1 res2 param).trend = .flat ↔ |(b - a) / a * 100| ≤ 10)) ∧
    (∀ (res1 res2 : List LabResult) (param : String),
      lookupTest res1 param = none →
      (compareRow res1 res2 param).visit1Value = none ∧
      (compareRow res1 res2 param).visit1Status = none ∧
      (compareRow res1 res2 param).changePct = none ∧
      (compareRow res1 res2 param).trend = .na) ∧
    (compareRow [⟨"ALT (SGPT)", "20 U/L", "10-40 U/L", "NORMAL"⟩]
      [⟨"ALT (SGPT)", "44 U/L", "10-40 U/L", "HIGH"⟩] "ALT (SGPT)").changePct = some 120 ∧
    (compareRow [⟨"ALT (SGPT)", "20 U/L", "10-40 U/L", "NORMAL"⟩]
      [⟨"ALT (SGPT)", "44 U/L", "10-40 U/L", "HIGH"⟩] "ALT (SGPT)").trend = .up := by
  have main : ∀ (res1 res2 : List LabResult) (param : String) (r1 r2 : LabResult) (a b : ℚ),
      lookupTest res1 param = some r1 → lookupTest res2 param = some r2 →
      pyFloatTok r1.value = some a → pyFloatTok r2.value = some b → a ≠ 0 →
      (compareRow res1 res2 param).changePct = some ((b - a) / a * 100) ∧
      ((compareRow res1 res2 param).trend = .up ↔ 10 < (b - a) / a * 100) ∧
      ((compareRow res1 res2 param).trend = .down ↔ (b - a) / a * 100 < -10) ∧
      ((compareRow res1 res2 param).trend = .flat ↔ |(b - a) / a * 100| ≤ 10) := by
    intro res1 res2 param r1 r2 a b h1 h2 h3 h4 ha
    simp only [compareRow, h1, h2, h3, h4]
    rw [if_neg ha]
    exact ⟨rfl, trend_if_spec ((b - a) / a * 100)⟩
  have hl1 : lookupTest [(⟨"ALT (SGPT)", "20 U/L", "10-40 U/L", "NORMAL"⟩ : LabResult)]
      "ALT (SGPT)" = some ⟨"ALT (SGPT)", "20 U/L", "10-40 U/L", "NORMAL"⟩ := by decide
  have hl2 : lookupTest [(⟨"ALT (SGPT)", "44 U/L", "10-40 U/L", "HIGH"⟩ : LabResult)]
      "ALT (SGPT)" = some ⟨"ALT (SGPT)", "44 U/L", "10-40 U/L", "HIGH"⟩ := by decide
  have ht1 : pyFloatTok "20 U/L" = some 20 := by
    simp [pyFloatTok, pyFloat, (by decide : firstToken "20 U/L" = some "20"),
      (by decide : pyFloatRepr "20" = some (false, 20, 1, 0))]
  have ht2 : pyFloatTok "44 U/L" = some 44 := by
    simp [pyFloatTok, pyFloat, (by decide : firstToken "44 U/L" = some "44"),
      (by decide : pyFloatRepr "44" = some (false, 44, 1, 0))]
  have hex := main _ _ "ALT (SGPT)" _ _ 20 44 hl1 hl2 ht1 ht2 (by norm_num)
  have hch : ((44 : ℚ) - 20) / 20 * 100 = 120 := by norm_num
  refine ⟨main, ?_, ?_, ?_⟩
  · intro res1 res2 param h1
    simp [compareRow, h1]
  · rw [hex.1, hch]
  · rw [hex.2.1, hch]
    norm_num

/-- Witness for claim C5's main clause: 10 to 22 is a +120% change. -/
theorem claim_C5_witness :
    (compareRow [(⟨"Albumin", "10", "3.5-5.0 g/dL", "HIGH"⟩ : LabResult)]
      [(⟨"Albumin", "22", "3.5-5.0 g/dL", "HIGH"⟩ : LabResult)] "Albumin").changePct =
      some ((22 - 10) / 10 * 100) :=
  (claim_C5_compare_percentage_change.1 _ _ "Albumin"
    ⟨"Albumin", "10", "3.5-5.0 g/dL", "HIGH"⟩ ⟨"Albumin", "22", "3.5-5.0 g/dL", "HIGH"⟩
    10 22 (by decide) (by decide)
    (by simp [pyFloatTok, pyFloat, (by decide : firstToken "10" = some "10"),
      (by decide : pyFloatRepr "10" = some (false, 10, 1, 0))])
    (by simp [pyFloatTok, pyFloat, (by decide : firstToken "22" = some "22"),
      (by decide : pyFloatRepr "22" = some (false, 22, 1, 0))])
    (by norm_num)).1

/-- Claim C6: a comparison row whose first-visit numeric value is `0`
reports its change and trend as the `'N/A'` sentinel instead of raising
`ZeroDivisionError`, and the comparison table still holds one row for
every parameter of the union. -/
theorem claim_C6_zero_division_na :
    (∀ (res1 res2 : List LabResult) (param : String) (r1 r2 : LabResult) (b : ℚ),
      lookupTest res1 param = some r1 → lookupTest res2 param = some r2 →
      pyFloatTok r1.value = some 0 → pyFloatTok r2.value = some b →
      (compareRow res1 res2 param).changePct = none ∧
      (compareRow res1 res2 param).trend = .na) ∧
    (∀ res1 res2 : List LabResult,
      (comparisonData res1 res2).length = (comparisonParams res1 res2).length ∧
      ∀ q ∈ comparisonParams res1 res2,
        ∃ row ∈ comparisonData res1 res2, row.parameter = q) := by
  constructor
  · intro res1 res2 param r1 r2 b h1 h2 h3 h4
    simp [compareRow, h1, h2, h3, h4]
  · intro res1 res2
    constructor
    · simp [comparisonData]
    · intro q hq
      exact ⟨compareRow res1 res2 q, List.mem_map_of_mem _ hq, rfl⟩

/-- Witness for claim C6 with a zero first value. -/
theorem claim_C6_witness :
    (compareRow [(⟨"Globulin", "0 U/L", "2.0-3.5 g/dL", "LOW"⟩ : LabResult)]
      [(⟨"Globulin", "5 U/L", "2.0-3.5 g/dL", "HIGH"⟩ : LabResult)] "Globulin").changePct =
      none :=
  (claim_C6_zero_division_na.1 _ _ "Globulin"
    ⟨"Globulin", "0 U/L", "2.0-3.5 g/dL", "LOW"⟩ ⟨"Globulin", "5 U/L", "2.0-3.5 g/dL", "HIGH"⟩
    5 (by decide) (by decide)
    (by simp [pyFloatTok, pyFloat, (by decide : firstToken "0 U/L" = some "0"),
      (by decide : pyFloatRepr "0" = some (false, 0, 1, 0))])
    (by simp [pyFloatTok, pyFloat, (by decide : firstToken "5 U/L" = some "5"),
      (by decide : pyFloatRepr "5" = some (false, 5, 1, 0))])).1

/-- Claim C7: `get_reference_range` depends on the gender argument only
through its lowercasing (so `"Male"` and `"male"` resolve identically),
returns `None` whenever the parameter key occurs in no category of the
table, and is case-sensitive on the parameter key; the scan returns the
entry of the first category containing the key, in table order. -/
theorem claim_C7_reference_range_lookup :
    (∀ ct g1 g2 : String, pyLower g1 = pyLower g2 →
      getReferenceRange ct g1 = getReferenceRange ct g2) ∧
    getReferenceRange "ALT (SGPT)" "Male" = getReferenceRange "ALT (SGPT)" "male" ∧
    (∀ ct g : String, paramInLftTable ct = false → getReferenceRange ct g = none) ∧
    getReferenceRange "Albumin" "Male" = some "3.5-5.0 g/dL" ∧
    getReferenceRange "Albumin" "male" = some "3.5-5.0 g/dL" ∧
    getReferenceRange "albumin" "Male" = none := by
  refine ⟨?_, ?_, ?_, ?_, ?_, ?_⟩
  · intro ct g1 g2 hg
    unfold getReferenceRange
    rw [hg]
  · decide
  · intro ct g hp
    exact lookupRange_eq_none ct (pyLower g) lftReferenceRangeValues hp
  · decide
  · decide
  · decide

/-- Witness for claim C7: a CBC-only parameter is absent from the LFT
table. -/
theorem claim_C7_witness : getReferenceRange "Hemoglobin" "Male" = none :=
  claim_C7_reference_range_lookup.2.2.1 "Hemoglobin" "Male" (by decide)

/-- Claim C8: with no backend client, every read of the history manager
returns its empty result (`[]`, `{}`, `False`) and saving reports
failure without changing anything; nothing raises. -/
theorem claim_C8_store_unavailable_degrades (store : HistoryStore)
    (h : store.client = false) (pid query : String) (now : ℤ) (info : PatientInfo)
    (results : List LabResult) (abns : List Abnormality) (isNew : Bool) :
    get_patient_history store pid = [] ∧
    get_patient_summary store pid = none ∧
    search_patients store query = [] ∧
    check_patient_id_exists store pid = false ∧
    save_patient_record store now pid info results abns isNew = (store, false) := by
  simp [get_patient_history, get_patient_summary, search_patients,
    check_patient_id_exists, save_patient_record, h]

/-- Witness for claim C8 on a concrete disconnected store. -/
theorem claim_C8_witness :
    get_patient_history ⟨false, []⟩ "X" = [] ∧
    get_patient_summary ⟨false, []⟩ "X" = none ∧
    search_patients ⟨false, []⟩ "q" = [] ∧
    check_patient_id_exists ⟨false, []⟩ "X" = false ∧
    save_patient_record ⟨false, []⟩ 0 "X" ⟨"A", 30, "Male", 1⟩ [] [] true =
      (⟨false, []⟩, false) :=
  claim_C8_store_unavailable_degrades ⟨false, []⟩ rfl "X" "q" 0 ⟨"A", 30, "Male", 1⟩ [] [] true

/-- Claim C9: with a connected store, `save_patient_record` succeeds and
`get_patient_history` under the same patient id retrieves the saved
record with its `lft_results` list — element order and each `Test`,
`Value`, `Reference Range`, `Status` field — preserved exactly. -/
theorem claim_C9_save_history_roundtrip (store : HistoryStore) (h : store.client = true)
    (now : ℤ) (pid : String) (info : PatientInfo)
    (results : List LabResult) (abns : List Abnormality) (isNew : Bool) :
    (save_patient_record store now pid info results abns isNew).2 = true ∧
    ∃ r ∈ get_patient_history (save_patient_record store now pid info results abns isNew).1 pid,
      r.lft_results = results ∧ r.patient_id = pid ∧ r.patient_name = info.name ∧
      r.age = info.age ∧ r.gender = info.gender ∧ r.test_date = info.test_date ∧
      r.abnormalities = abns := by
  constructor
  · simp [save_patient_record, h]
  · refine ⟨⟨pid, info.name, info.age, info.gender, info.test_date, results, abns, now, isNew⟩,
      ?_, rfl, rfl, rfl, rfl, rfl, rfl, rfl⟩
    simp [save_patient_record, h, get_patient_history, mem_sortByDate, List.mem_filter]

/-- Witness for claim C9: one save into an empty connected store. -/
theorem claim_C9_witness :
    (save_patient_record ⟨true, []⟩ 5 "P1" ⟨"A", 30, "Male", 3⟩ [sampleResult] [] true).2 =
      true ∧
    ∃ r ∈ get_patient_history
        (save_patient_record ⟨true, []⟩ 5 "P1" ⟨"A", 30, "Male", 3⟩ [sampleResult] [] true).1
        "P1",
      r.lft_results = [sampleResult] ∧ r.patient_id = "P1" ∧ r.patient_name = "A" ∧
      r.age = 30 ∧ r.gender = "Male" ∧ r.test_date = 3 ∧ r.abnormalities = [] :=
  claim_C9_save_history_roundtrip ⟨true, []⟩ rfl 5 "P1" ⟨"A", 30, "Male", 3⟩ [sampleResult] []
    true

/-- Claim C10: whenever two bounds are extracted from the range text —
whether or not the first is below the second — `analyze_value` is
monotone in the value under the order `LOW < NORMAL < HIGH`. -/
theorem claim_C10_classify_monotone (rt : String) (lo hi : ℚ)
    (h : extractRange rt = some (lo, hi)) (v1 v2 : ℚ) (hv : v1 ≤ v2) :
    verdictRank (analyzeValue v1 rt).1 ≤ verdictRank (analyzeValue v2 rt).1 := by
  rw [analyzeValue_of_extract h v1, analyzeValue_of_extract h v2]
  split_ifs <;> simp [verdictRank] <;> linarith

/-- Witness for claim C10 on the ALT male range. -/
theorem claim_C10_witness :
    verdictRank (analyzeValue 1 "10-40 U/L").1 ≤ verdictRank (analyzeValue 50 "10-40 U/L").1 :=
  claim_C10_classify_monotone "10-40 U/L" 10 40
    (by simp [extractRange, (by decide : pyFindallNumbers "10-40 U/L" = ["10", "40"]),
      parseDecS, parseDec, (by decide : parseDecParts "10".data = (10, 1)),
      (by decide : parseDecParts "40".data = (40, 1))])
    1 50 (by decide)

end SmartLabAI
